import Mathlib

/-!
Verification development for the collaborative MCP proxy servers.

The repository ships several server variants.  The embeddings below follow,
definition by definition, the code of:

* `fixed-collaborative-v2.js` (namespace `FixedV2`): the SDK-based server with
  an MCP client registry and child-process cleanup;
* the simple JSON-RPC server (`src/unnamed/part_003`, namespace `SimpleV`):
  line-buffered stdin reader, method dispatch with a catch-all error handler,
  and the Zen-style two-phase collaboration;
* the proxy server (`src/unnamed/part_000`, namespace `Proxy`): per-chunk
  line splitting and the `-32601`/`-32602` error dispatch;
* the real-collaboration server (second document of `data-parser.js`,
  namespace `RealV`): three-phase collaboration with a cross-review pass;
* `DataParser` (first document of `data-parser.js`, namespace `Parser`).

Participant calls, MCP handshakes and child processes are input/output; they
are modelled by explicit oracle parameters (a function giving each call its
outcome) and by explicit process-state records, so that every definition stays
executable and every control-flow decision of the source is kept.
-/

namespace CollabProxy

/-- Association list standing for a JS object used as a string-keyed map
(insertion order preserved, one entry per key). -/
abbrev AList := List (String × String)

/-- Lookup of a key in an association list (first matching entry). -/
def alookup : AList → String → Option String
  | [], _ => none
  | (k', v) :: rest, k => if k' = k then some v else alookup rest k

/-- JS object assignment `m[k] = v`: replace the entry in place when the key
exists, otherwise append a new entry at the end. -/
def setk : AList → String → String → AList
  | [], k, v => [(k, v)]
  | (k', v') :: rest, k, v =>
    if k' = k then (k, v) :: rest else (k', v') :: setk rest k v

/-- Common shape of the Phase-1 recording loops: each participant in turn has
its call outcome recorded, a success into the first map, a caught error
message into the second map.  This is the shared skeleton of
`handleCollaborate` (fixed-collaborative-v2.js lines 110-120) and of the
`Promise.allSettled` collection loop of `performCollaboration`
(src/unnamed/part_003 lines 163-188), whose per-participant outcomes are
deterministic functions of the participant under a fixed oracle. -/
def recordLoop (call : String → Except String String) :
    List String → AList × AList → AList × AList
  | [], acc => acc
  | p :: ps, acc =>
    match call p with
    | .ok r => recordLoop call ps (setk acc.1 p r, acc.2)
    | .error e => recordLoop call ps (acc.1, setk acc.2 p e)

/-- One JSON-RPC response line as written by the servers: an `id`, and either
a `result` (its text payload) or an `error` object with `code` and `message`. -/
structure Response where
  id : Option Int
  result : Option String
  error : Option (Int × String)
  deriving DecidableEq

/-- Arguments of a `collaborate` tool call: `task`, `content`, `participants`
as they arrive in `params.arguments` (each possibly absent). -/
structure Args where
  task : Option String
  content : Option String
  participants : Option (List String)
  deriving DecidableEq

/-- One inbound JSON-RPC request restricted to the fields the dispatchers
read: `id`, `method`, and for `tools/call` the `params.name` tool name plus
the `params.arguments` object. -/
structure Request where
  id : Option Int
  method : String
  toolName : Option String
  args : Args
  deriving DecidableEq

namespace Parser

/-- Extracted vessel parameters (data-parser.js).  JS numbers are modelled as
rationals; only the integral defaults are ever evaluated here. -/
structure VesselData where
  pressure : ℚ
  temperature : ℚ
  diameter : ℚ
  material : String
  deriving DecidableEq

/-- Constructor defaults of DataParser (data-parser.js lines 7-14). -/
def defaultValues : VesselData :=
  { pressure := 15, temperature := 80, diameter := 1200
    material := "ASTM A516 Grade 70" }

/-- parseVesselData (data-parser.js lines 16-89).  The body starts from a copy
of `defaultValues` and returns it unchanged when the input is JS-falsy (`null`,
`undefined` or the empty string, the `if (!text) return data` guard); on any
other text the regex extraction updates that copy.  The extraction itself
(lines 21-88) is out of the claims path here and is kept abstract as
`extract`, applied to the copied defaults. -/
def parseVesselData (extract : String → VesselData → VesselData)
    (text : Option String) : VesselData :=
  match text with
  | none => defaultValues
  | some s => if s = "" then defaultValues else extract s defaultValues

/-- hasRealData (data-parser.js lines 101-107): true when any field differs
from the constructor defaults. -/
def hasRealData (d : VesselData) : Bool :=
  decide (d.pressure ≠ defaultValues.pressure) ||
  decide (d.temperature ≠ defaultValues.temperature) ||
  decide (d.diameter ≠ defaultValues.diameter) ||
  decide (d.material ≠ defaultValues.material)

end Parser

namespace FixedV2

/-- callParticipant (fixed-collaborative-v2.js lines 132-143): gemini, codex
and ollama dispatch to their MCP call, whose outcome (result text or thrown
error message) the oracle `calls` supplies; any other name throws an Unknown
participant error. -/
def callParticipant (calls : String → Except String String) (p : String) :
    Except String String :=
  if p = "gemini" ∨ p = "codex" ∨ p = "ollama" then calls p
  else .error ("Unknown participant: " ++ p)

/-- Phase-1 loop of handleCollaborate (fixed-collaborative-v2.js lines
107-120): starting from empty `results` and `errors` objects, each requested
participant is awaited in turn inside try/catch, a success stored in
`results[participant]`, a caught error message in `errors[participant]`. -/
def phase1 (calls : String → Except String String) (participants : List String) :
    CollabProxy.AList × CollabProxy.AList :=
  CollabProxy.recordLoop (callParticipant calls) participants ([], [])

/-- Condensed generateCollaborativeReport (fixed-collaborative-v2.js lines
349-410): the success-rate header, one section per successful participant,
one Connection Issues entry per error.  The surrounding markdown prose is
report formatting the spec places out of scope. -/
def generateCollaborativeReport (task : Option String)
    (results errors : CollabProxy.AList) : String :=
  "Collaborative AI Analysis Report Task: " ++ task.getD "undefined" ++
  " Success Rate: " ++ toString results.length ++ "/" ++
  toString (results.length + errors.length) ++
  String.join (results.map fun kv => " [" ++ kv.1 ++ " Analysis] " ++ kv.2) ++
  String.join (errors.map fun kv => " [" ++ kv.1 ++ " error] " ++ kv.2)

/-- handleCollaborate (fixed-collaborative-v2.js lines 102-130): runs the
Phase-1 loop and unconditionally returns the report as a successful tool
result (content of type text); no branch of the function produces a thrown
error or a protocol error, whatever the per-participant outcomes were. -/
def handleCollaborate (calls : String → Except String String)
    (task : Option String) (participants : List String) : String :=
  let pr := phase1 calls participants
  generateCollaborativeReport task pr.1 pr.2

end FixedV2

namespace SimpleV

/-- callParticipant of the simple server (src/unnamed/part_003 lines 209-222):
ollama, gemini, codex and serena dispatch to their analysis call (outcome
given by the oracle `calls`); any other participant name throws. -/
def callParticipant (calls : String → Except String String) (p : String) :
    Except String String :=
  if p = "ollama" ∨ p = "gemini" ∨ p = "codex" ∨ p = "serena" then calls p
  else .error ("Unknown participant: " ++ p)

/-- Phase 1 of performCollaboration (src/unnamed/part_003 lines 154-188):
serena is filtered out (`nonSerenaParticipants`), the remaining participants
are launched in parallel with per-participant try/catch and the settled
outcomes are collected, in participant order, into `initialResults` and
`errors`.  Under a fixed oracle the parallel launch and ordered collection
coincide with the sequential recording loop. -/
def phase1 (calls : String → Except String String) (participants : List String) :
    CollabProxy.AList × CollabProxy.AList :=
  CollabProxy.recordLoop (callParticipant calls)
    (participants.filter (fun p => p ≠ "serena")) ([], [])

/-- performCollaboration, session maps only (src/unnamed/part_003 lines
139-207): Phase 1 records the non-serena outcomes; when serena was requested,
Phase 2 stores the consensus text under `results.serena`.  The consensus call
`callSerenaWithContext` (lines 878-901) catches every failure internally and
falls back to a locally generated consensus, so it is modelled as the total
function `serenaConsensus` of the Phase-1 results. -/
def performCollaboration (calls : String → Except String String)
    (serenaConsensus : CollabProxy.AList → String) (participants : List String) :
    CollabProxy.AList × CollabProxy.AList :=
  let pr := phase1 calls participants
  if "serena" ∈ participants then
    (CollabProxy.setk pr.1 "serena" (serenaConsensus pr.1), pr.2)
  else pr

/-- Condensed generateZenStyleReport (src/unnamed/part_003 lines 1009-1061):
success-rate header, one section per recorded result, one error section per
recorded error.  The markdown prose around it is out-of-scope formatting. -/
def generateZenStyleReport (task : Option String)
    (results errors : CollabProxy.AList) : String :=
  "Zen-Style Collaborative AI Analysis Task: " ++ task.getD "undefined" ++
  " Success Rate: " ++ toString results.length ++ "/" ++
  toString (results.length + errors.length) ++
  String.join (results.map fun kv => " [" ++ kv.1 ++ "] " ++ kv.2) ++
  String.join (errors.map fun kv => " [" ++ kv.1 ++ " Error] " ++ kv.2)

/-- Default participant list of the collaborate tool (src/unnamed/part_003
line 140). -/
def defaultParticipants : List String := ["ollama", "gemini", "codex", "serena"]

/-- handleToolsCall (src/unnamed/part_003 lines 116-137): for the collaborate
tool the collaboration runs and its report is wrapped in a successful result
without any inspection of the arguments (in particular no check that `task` is
present or non-empty); any other tool name throws Unknown tool, which the
caller turns into an error response. -/
def handleToolsCall (calls : String → Except String String)
    (serenaConsensus : CollabProxy.AList → String) (req : Request) :
    Except String Response :=
  match req.toolName with
  | some name =>
    if name = "collaborate" then
      let parts := req.args.participants.getD defaultParticipants
      let maps := performCollaboration calls serenaConsensus parts
      .ok { id := req.id
            result := some (generateZenStyleReport req.args.task maps.1 maps.2)
            error := none }
    else .error ("Unknown tool: " ++ name)
  | none => .error "Unknown tool: undefined"

/-- handleRequest (src/unnamed/part_003 lines 26-58): dispatch on the method;
the notification gets no response; any exception escaping the switch — the
Unknown method throw of the default branch as well as the Unknown tool throw
of handleToolsCall — is caught by the surrounding catch and answered with
error code -32601 carrying the thrown message. -/
def handleRequest (calls : String → Except String String)
    (serenaConsensus : CollabProxy.AList → String) (req : Request) :
    Option Response :=
  if req.method = "initialize" then
    some { id := req.id, result := some "initialize-result", error := none }
  else if req.method = "notifications/initialized" then none
  else if req.method = "tools/list" then
    some { id := req.id, result := some "tools-list-result", error := none }
  else if req.method = "tools/call" then
    match handleToolsCall calls serenaConsensus req with
    | .ok resp => some resp
    | .error e => some { id := req.id, result := none, error := some (-32601, e) }
  else
    some { id := req.id, result := none
           error := some (-32601, "Unknown method: " ++ req.method) }

end SimpleV

namespace Proxy

/-- handleToolCall (src/unnamed/part_000 lines 142-173): a tool name other
than collaborate is answered with error code -32602 (Unknown tool);
collaborate runs the proxied collaboration (outcome `collab`), a success
wrapped as a text result, a failure answered with code -32603. -/
def handleToolCall (collab : Except String String) (rid : Option Int)
    (toolName : Option String) : Response :=
  match toolName with
  | some name =>
    if name = "collaborate" then
      match collab with
      | .ok text => { id := rid, result := some text, error := none }
      | .error e =>
        { id := rid, result := none
          error := some (-32603, "Collaboration failed: " ++ e) }
    else
      { id := rid, result := none, error := some (-32602, "Unknown tool: " ++ name) }
  | none =>
    { id := rid, result := none, error := some (-32602, "Unknown tool: undefined") }

/-- handleRequest (src/unnamed/part_000 lines 51-81): dispatch on the method;
the cancelled notification only logs; an unknown method is answered with
error code -32601 (Method not found). -/
def handleRequest (collab : Except String String) (req : Request) :
    Option Response :=
  if req.method = "initialize" then
    some { id := req.id, result := some "initialize-result", error := none }
  else if req.method = "tools/list" then
    some { id := req.id, result := some "tools-list-result", error := none }
  else if req.method = "tools/call" then
    some (handleToolCall collab req.id req.toolName)
  else if req.method = "notifications/cancelled" then none
  else
    some { id := req.id, result := none
           error := some (-32601, "Method not found: " ++ req.method) }

/-- JS String.trim over character lists: leading and trailing whitespace
removed. -/
def trimChars (s : List Char) : List Char :=
  ((s.dropWhile Char.isWhitespace).reverse.dropWhile Char.isWhitespace).reverse

/-- JS String.split on the separator the proxy source writes as
single-quoted backslash backslash n — the literal two-character sequence
backslash n, not a newline — over character lists. -/
def splitLit : List Char → List (List Char)
  | [] => [[]]
  | '\\' :: 'n' :: rest => [] :: splitLit rest
  | c :: rest =>
    match splitLit rest with
    | [] => [[c]]
    | l :: ls => (c :: l) :: ls

/-- handleInput line extraction (src/unnamed/part_000 lines 34-49): each
stdin data event is trimmed and split on the literal backslash-n separator,
with no buffer kept across events; blank pieces are skipped and every other
piece is handed to JSON.parse. -/
def linesOfChunk (chunk : List Char) : List (List Char) :=
  (splitLit (trimChars chunk)).filter (fun l => trimChars l ≠ [])

/-- The full sequence of pieces handed to JSON.parse over a sequence of data
events. -/
def processChunks (chunks : List (List Char)) : List (List Char) :=
  (chunks.map linesOfChunk).flatten

end Proxy

namespace RealV

/-- Phase 1 of performRealCollaboration (data-parser.js, second document,
lines 305-338): three sequential try/catch sections record the gemini, codex
and ollama outcomes (oracle `calls`) into `results` and `errors`. -/
def phase1 (calls : String → Except String String) :
    CollabProxy.AList × CollabProxy.AList :=
  CollabProxy.recordLoop calls ["gemini", "codex", "ollama"] ([], [])

/-- The otherResults object built for one reviewer (lines 350-355): the loop
over the successful entries keeps every colleague entry and skips the
reviewer entry itself. -/
def otherResults : CollabProxy.AList → String → CollabProxy.AList
  | [], _ => []
  | kv :: rest, reviewer =>
    if kv.1 = reviewer then otherResults rest reviewer
    else kv :: otherResults rest reviewer

/-- conductCrossReview (lines 495-531): the review prompt is built over the
colleague results and a single call is dispatched to the reviewer backend;
the oracle `reviewCall` receives the reviewer and the colleague results the
prompt embeds.  Every failure inside — including an unknown reviewer — is
rethrown tagged with the reviewer name. -/
def conductCrossReview
    (reviewCall : String → CollabProxy.AList → Except String String)
    (reviewer : String) (others : CollabProxy.AList) : Except String String :=
  let dispatched :=
    if reviewer = "gemini" ∨ reviewer = "codex" ∨ reviewer = "ollama" then
      reviewCall reviewer others
    else .error ("Unknown reviewer AI: " ++ reviewer)
  match dispatched with
  | .ok r => .ok r
  | .error e => .error ("Cross-review by " ++ reviewer ++ " failed: " ++ e)

/-- The discussion text stored for one reviewer (lines 348-364): the
cross-review result, or the Discussion error text built from the caught
message. -/
def discussionEntry
    (reviewCall : String → CollabProxy.AList → Except String String)
    (results : CollabProxy.AList) (reviewer : String) : String :=
  match conductCrossReview reviewCall reviewer (otherResults results reviewer) with
  | .ok d => d
  | .error e => "Discussion error: " ++ e

/-- Phase 2 of performRealCollaboration (lines 340-365): only when at least
two AIs succeeded in Phase 1 does the loop run; each successful AI, as
reviewer, gets exactly one cross-review over the other successful results,
and its outcome — or its caught failure — is stored under the reviewer key
without stopping the loop. -/
def crossReviewPhase
    (reviewCall : String → CollabProxy.AList → Except String String)
    (results : CollabProxy.AList) : CollabProxy.AList :=
  if 2 ≤ results.length then
    results.map (fun kv => (kv.1, discussionEntry reviewCall results kv.1))
  else []

/-- performRealCollaboration, session maps (lines 305-373): the Phase-1
success and error maps and the Phase-2 discussion map; Phase 3 then renders
consensus and report strings from them. -/
def performRealCollaboration (calls : String → Except String String)
    (reviewCall : String → CollabProxy.AList → Except String String) :
    CollabProxy.AList × CollabProxy.AList × CollabProxy.AList :=
  let pr := phase1 calls
  (pr.1, pr.2, crossReviewPhase reviewCall pr.1)

end RealV

namespace Registry

/-- Registry state for the identity gemini-client: the keys currently in
mcpClients, and how many child processes have been spawned so far for that
identity. -/
structure RegState where
  clients : List String
  spawnCount : Nat
  deriving DecidableEq

/-- The two atomic event-loop slices of one concurrent callGeminiMCP creation
(fixed-collaborative-v2.js lines 145-155 and 234-301).  A check slice is the
synchronous run up to the first await: the mcpClients.has test followed, when
the key is absent, by the synchronous spawn inside createMCPClient.  A
register slice is the then-continuation after client.connect resolves, which
runs mcpClients.set.  Nothing else touches the registry for this identity,
and nothing in the source records an in-progress creation. -/
inductive Ev
  | check
  | register
  deriving DecidableEq

def step (s : RegState) : Ev → RegState
  | .check =>
    if s.clients.contains "gemini-client" then s
    else { s with spawnCount := s.spawnCount + 1 }
  | .register => { s with clients := "gemini-client" :: s.clients }

/-- Execution of one interleaving of slices. -/
def run (evs : List Ev) (s : RegState) : RegState := evs.foldl step s

def init : RegState := { clients := [], spawnCount := 0 }

end Registry

namespace Child

/-- Observable state of one spawned child process.  killedFlag is the Node
ChildProcess.killed property: it becomes true as soon as a signal was
successfully sent with kill, whether or not the process has terminated;
alive tells whether the OS process is still running. -/
structure Proc where
  alive : Bool
  killedFlag : Bool
  received : List String
  deriving DecidableEq

/-- Node subprocess.kill: when the process still runs, the signal is
delivered and the killed property becomes true.  honorsSigterm abstracts the
child behaviour: when true it exits on SIGTERM within the grace window, when
false it ignores SIGTERM; SIGKILL always terminates it. -/
def procKill (honorsSigterm : Bool) (p : Proc) (sig : String) : Proc :=
  if p.alive then
    { alive := if sig = "SIGKILL" then false
               else if sig = "SIGTERM" then !honorsSigterm
               else p.alive
      killedFlag := true
      received := p.received ++ [sig] }
  else p

/-- The child-process section of cleanupClient (fixed-collaborative-v2.js
lines 316-331) together with its 5 second timer: when the killed property is
unset, SIGTERM is sent, and the timer body sends SIGKILL only if the killed
property is still unset when the grace window elapses.  Returns the process
state after the grace window. -/
def cleanupKill (honorsSigterm : Bool) (p : Proc) : Proc :=
  if !p.killedFlag then
    let p1 := procKill honorsSigterm p "SIGTERM"
    if !p1.killedFlag then procKill honorsSigterm p1 "SIGKILL" else p1
  else p

/-- The cleanup loop of the simple server (src/unnamed/part_003 lines
1063-1074): SIGTERM when the killed property is unset; it has no timer and
no SIGKILL escalation at all. -/
def simpleCleanup (honorsSigterm : Bool) (p : Proc) : Proc :=
  if !p.killedFlag then procKill honorsSigterm p "SIGTERM" else p

/-- System state around one client key: whether mcpClients holds the key,
whether childProcesses still tracks the process, and the process itself. -/
structure Sys where
  hasClient : Bool
  trackedProc : Bool
  proc : Proc
  deriving DecidableEq

/-- cleanupClient (fixed-collaborative-v2.js lines 303-335) for one key:
close and drop the MCP client when present, then run the kill sequence on a
still-tracked child process and drop its childProcesses entry. -/
def cleanupClient (honorsSigterm : Bool) (s : Sys) : Sys :=
  let s1 : Sys := { s with hasClient := false }
  if s1.trackedProc then
    { s1 with trackedProc := false, proc := cleanupKill honorsSigterm s1.proc }
  else s1

/-- Settlement of the client.connect promise relative to the 15000 ms
handshake timer of createMCPClient (lines 277-295): the promise resolves or
rejects at some time, or never settles. -/
inductive ConnectOutcome
  | resolves (t : Nat)
  | rejects (t : Nat) (msg : String)
  | pending
  deriving DecidableEq

/-- Whether the 15 s timer fires before the connect promise settles. -/
def timesOut : ConnectOutcome → Bool
  | .resolves t => 15000 ≤ t
  | .rejects t _ => 15000 ≤ t
  | .pending => true

/-- createMCPClient (fixed-collaborative-v2.js lines 234-301) composed with
the catch of its caller callGeminiMCP (lines 145-179), handshake phase only:
a fresh child is spawned and tracked in childProcesses; client.connect races
the 15000 ms timer.  Resolution in time registers the client and resolves.
Rejection in time runs cleanupClient inside createMCPClient and rejects, and
the caller's catch runs cleanupClient once more (now without a tracked
process).  Timer expiry rejects with the connection-timeout message, the
caller's catch runs cleanupClient and rethrows; a connect resolution
arriving after the timer still runs its then-continuation, registering the
client late; a late rejection runs cleanupClient once more.  Returns the
outcome seen by the caller of callGeminiMCP and the final system state. -/
def createAndCatch (honorsSigterm : Bool) (o : ConnectOutcome) :
    Except String String × Sys :=
  let s0 : Sys := { hasClient := false, trackedProc := true
                    proc := { alive := true, killedFlag := false, received := [] } }
  match o with
  | .resolves t =>
    if t < 15000 then (.ok "connected", { s0 with hasClient := true })
    else
      let s1 := cleanupClient honorsSigterm s0
      (.error "Gemini MCP call failed: gemini-client connection timeout",
       { s1 with hasClient := true })
  | .rejects t msg =>
    if t < 15000 then
      (.error ("Gemini MCP call failed: gemini-client connection failed: " ++ msg),
       cleanupClient honorsSigterm (cleanupClient honorsSigterm s0))
    else
      (.error "Gemini MCP call failed: gemini-client connection timeout",
       cleanupClient honorsSigterm (cleanupClient honorsSigterm s0))
  | .pending =>
    (.error "Gemini MCP call failed: gemini-client connection timeout",
     cleanupClient honorsSigterm s0)

end Child

namespace Codec

/-- JS String.split with the newline separator, over character lists: the
segments between newline characters, always at least one (possibly empty)
segment.  This is the split the stdin reader of the simple server performs
on its buffer (src/unnamed/part_003 line 1096). -/
def splitNL : List Char → List (List Char)
  | [] => [[]]
  | c :: cs =>
    if c = '\n' then [] :: splitNL cs
    else
      match splitNL cs with
      | [] => [[c]]
      | l :: ls => (c :: l) :: ls

/-- Head-merge of two split runs: the trailing open segment of the first run
continues into the first segment of the second. -/
def mergeHead (x : List Char) : List (List Char) → List (List Char)
  | [] => [x]
  | y :: ys => (x ++ y) :: ys

/-- The stdin data handler of the simple server (src/unnamed/part_003 lines
1092-1098): the chunk is appended to the buffer, the buffer is split on
newlines, the trailing partial segment is popped back into the buffer and
the complete lines are emitted for the per-line handling (trim test,
JSON.parse, dispatch into handleRequest). -/
def feed (buf chunk : List Char) : List (List Char) × List Char :=
  let parts := splitNL (buf ++ chunk)
  (parts.dropLast, parts.getLastD [])

/-- One data event applied to the accumulated emitted lines and buffer. -/
def feedStep (acc : List (List Char) × List Char) (chunk : List Char) :
    List (List Char) × List Char :=
  let fd := feed acc.2 chunk
  (acc.1 ++ fd.1, fd.2)

/-- Processing of a whole sequence of data events from the initial empty
buffer, collecting every emitted complete line in order. -/
def runFeed (chunks : List (List Char)) : List (List Char) × List Char :=
  chunks.foldl feedStep ([], [])

end Codec

/-- A well-formed collaborate tools/call request with the given id and
arguments. -/
def collabRequest (rid : Option Int) (task content : Option String)
    (parts : Option (List String)) : Request :=
  { id := rid, method := "tools/call", toolName := some "collaborate"
    args := { task := task, content := content, participants := parts } }

/-- Oracle under which every participant MCP call fails with a connection
error (the thrown message that the catch blocks record). -/
def allFailCalls : String → Except String String :=
  fun _ => .error "MCP connection failed"

/-- Oracle under which every participant call succeeds with a per-participant
analysis text. -/
def okCalls : String → Except String String :=
  fun p => .ok (p ++ " analysis")

/-- Concrete serena consensus function used in evaluations. -/
def fixedConsensus : AList → String := fun _ => "serena consensus"

/-- Review oracle under which every cross-review succeeds. -/
def okReview : String → AList → Except String String :=
  fun r _ => .ok (r ++ " review")

/-- Review oracle failing for the codex reviewer only. -/
def codexFailReview : String → AList → Except String String :=
  fun r _ => if r = "codex" then .error "review timeout" else .ok (r ++ " review")

end CollabProxy

namespace CollabProxy

theorem alookup_setk_self (m : AList) (k v : String) :
    alookup (setk m k v) k = some v := by
  induction m with
  | nil => simp [setk, alookup]
  | cons kv rest ih =>
    by_cases h : kv.1 = k
    · simp [setk, h, alookup]
    · simp [setk, h, alookup, ih]

theorem alookup_setk_ne (m : AList) (k v q : String) (h : q ≠ k) :
    alookup (setk m k v) q = alookup m q := by
  have hkq : ¬ k = q := fun hh => h hh.symm
  induction m with
  | nil => simp [setk, alookup, hkq]
  | cons kv rest ih =>
    by_cases hk : kv.1 = k
    · simp [setk, hk, alookup, hkq]
    · by_cases hq : kv.1 = q
      · simp [setk, hk, alookup, hq, h]
      · simp [setk, hk, alookup, hq, ih]

theorem recordLoop_not_mem (call : String → Except String String) :
    ∀ (ps : List String) (acc : AList × AList) (p : String), p ∉ ps →
      alookup (recordLoop call ps acc).1 p = alookup acc.1 p ∧
      alookup (recordLoop call ps acc).2 p = alookup acc.2 p := by
  intro ps
  induction ps with
  | nil => intro acc p _; simp [recordLoop]
  | cons q ps ih =>
    intro acc p hp
    have hqp : q ≠ p := fun h => hp (h ▸ List.mem_cons_self q ps)
    have hptail : p ∉ ps := fun h => hp (List.mem_cons_of_mem q h)
    cases hc : call q with
    | ok r =>
      have := ih (setk acc.1 q r, acc.2) p hptail
      simpa [recordLoop, hc, alookup_setk_ne acc.1 q r p (Ne.symm hqp)] using this
    | error e =>
      have := ih (acc.1, setk acc.2 q e) p hptail
      simpa [recordLoop, hc, alookup_setk_ne acc.2 q e p (Ne.symm hqp)] using this

theorem recordLoop_mem_ok (call : String → Except String String) :
    ∀ (ps : List String) (acc : AList × AList) (p : String) (r : String),
      p ∈ ps → call p = .ok r →
      alookup (recordLoop call ps acc).1 p = some r ∧
      alookup (recordLoop call ps acc).2 p = alookup acc.2 p := by
  intro ps
  induction ps with
  | nil => intro acc p r hp; exact absurd hp (List.not_mem_nil p)
  | cons q ps ih =>
    intro acc p r hp hcall
    by_cases hqp : q = p
    · subst hqp
      by_cases hqtail : q ∈ ps
      · have := ih (setk acc.1 q r, acc.2) q r hqtail hcall
        simpa [recordLoop, hcall] using this
      · have := recordLoop_not_mem call ps (setk acc.1 q r, acc.2) q hqtail
        simpa [recordLoop, hcall, alookup_setk_self acc.1 q r] using this
    · have hptail : p ∈ ps := by
        rcases List.mem_cons.mp hp with h | h
        · exact absurd h.symm hqp
        · exact h
      cases hc : call q with
      | ok s =>
        have := ih (setk acc.1 q s, acc.2) p r hptail hcall
        simpa [recordLoop, hc] using this
      | error e =>
        have := ih (acc.1, setk acc.2 q e) p r hptail hcall
        simpa [recordLoop, hc, alookup_setk_ne acc.2 q e p (Ne.symm hqp)] using this

theorem recordLoop_mem_error (call : String → Except String String) :
    ∀ (ps : List String) (acc : AList × AList) (p : String) (e : String),
      p ∈ ps → call p = .error e →
      alookup (recordLoop call ps acc).2 p = some e ∧
      alookup (recordLoop call ps acc).1 p = alookup acc.1 p := by
  intro ps
  induction ps with
  | nil => intro acc p e hp; exact absurd hp (List.not_mem_nil p)
  | cons q ps ih =>
    intro acc p e hp hcall
    by_cases hqp : q = p
    · subst hqp
      by_cases hqtail : q ∈ ps
      · have := ih (acc.1, setk acc.2 q e) q e hqtail hcall
        simpa [recordLoop, hcall] using this
      · have := recordLoop_not_mem call ps (acc.1, setk acc.2 q e) q hqtail
        simpa [recordLoop, hcall, alookup_setk_self acc.2 q e] using this.symm
    · have hptail : p ∈ ps := by
        rcases List.mem_cons.mp hp with h | h
        · exact absurd h.symm hqp
        · exact h
      cases hc : call q with
      | ok s =>
        have := ih (setk acc.1 q s, acc.2) p e hptail hcall
        simpa [recordLoop, hc, alookup_setk_ne acc.1 q s p (Ne.symm hqp)] using this
      | error e' =>
        have := ih (acc.1, setk acc.2 q e') p e hptail hcall
        simpa [recordLoop, hc] using this

theorem recordLoop_all_error_fst (call : String → Except String String) :
    ∀ (ps : List String) (acc : AList × AList),
      (∀ p ∈ ps, ∃ e, call p = .error e) →
      (recordLoop call ps acc).1 = acc.1 := by
  intro ps
  induction ps with
  | nil => intro acc _; simp [recordLoop]
  | cons q ps ih =>
    intro acc hall
    obtain ⟨e, he⟩ := hall q (List.mem_cons_self q ps)
    have := ih (acc.1, setk acc.2 q e) fun p hp => hall p (List.mem_cons_of_mem q hp)
    simpa [recordLoop, he] using this

namespace Codec

theorem splitNL_ne_nil (s : List Char) : splitNL s ≠ [] := by
  cases s with
  | nil => simp [splitNL]
  | cons c cs =>
    by_cases h : c = '\n'
    · simp [splitNL, h]
    · cases hs : splitNL cs <;> simp [splitNL, h, hs]

theorem mergeHead_ne_nil (x : List Char) (ys : List (List Char)) :
    mergeHead x ys ≠ [] := by
  cases ys <;> simp [mergeHead]

theorem dropLast_append_ne {α : Type} (xs : List α) (m : List α) (h : m ≠ []) :
    (xs ++ m).dropLast = xs ++ m.dropLast :=
  List.dropLast_append_of_ne_nil xs h

theorem getLastD_append_ne {α : Type} (xs : List α) (m : List α) (h : m ≠ [])
    (d : α) : (xs ++ m).getLastD d = m.getLastD d := by
  cases m with
  | nil => exact absurd rfl h
  | cons b l =>
    simp [List.getLastD_eq_getLast?, List.getLast?_append_of_ne_nil xs h]

theorem getD_getLast?_cons {α : Type} (a : α) (l : List α) (d : α) :
    (a :: l).getLast?.getD d = l.getLast?.getD a := by
  rw [← List.getLastD_eq_getLast?, ← List.getLastD_eq_getLast?, List.getLastD_cons]

theorem splitNL_append (a b : List Char) :
    splitNL (a ++ b) =
      (splitNL a).dropLast ++ mergeHead ((splitNL a).getLastD []) (splitNL b) := by
  induction a with
  | nil =>
    cases hb : splitNL b with
    | nil => exact absurd hb (splitNL_ne_nil b)
    | cons y ys => simp [splitNL, mergeHead, hb]
  | cons c cs ih =>
    cases hcs : splitNL cs with
    | nil => exact absurd hcs (splitNL_ne_nil cs)
    | cons l ls =>
      cases hb : splitNL b with
      | nil => exact absurd hb (splitNL_ne_nil b)
      | cons y ys =>
        have hsb1 : ls = [] → splitNL (cs ++ b) = (l ++ y) :: ys := by
          intro hls; subst hls
          rw [ih, hcs, hb]; simp [mergeHead]
        have hsb2 : ∀ l2 ls2, ls = l2 :: ls2 → splitNL (cs ++ b) =
            l :: ((l2 :: ls2).dropLast ++
              mergeHead ((l2 :: ls2).getLastD l) (y :: ys)) := by
          intro l2 ls2 hls; subst hls
          rw [ih, hcs, hb]; simp [List.getLastD_cons, getD_getLast?_cons]
        by_cases h : c = '\n'
        · cases ls with
          | nil =>
            simp [List.cons_append, splitNL, if_pos h, hsb1 rfl, hcs, hb, mergeHead]
          | cons l2 ls2 =>
            simp [List.cons_append, splitNL, if_pos h, hsb2 l2 ls2 rfl, hcs, hb,
              mergeHead, List.getLastD_cons, getD_getLast?_cons]
        · cases ls with
          | nil =>
            simp [List.cons_append, splitNL, if_neg h, hsb1 rfl, hcs, hb, mergeHead]
          | cons l2 ls2 =>
            simp [List.cons_append, splitNL, if_neg h, hsb2 l2 ls2 rfl, hcs, hb,
              mergeHead, List.getLastD_cons, getD_getLast?_cons]

theorem splitNL_no_newline (s : List Char) (h : '\n' ∉ s) : splitNL s = [s] := by
  induction s with
  | nil => simp [splitNL]
  | cons c cs ih =>
    have hc : ¬ c = '\n' := by intro hh; exact h (by simp [hh])
    have htail : '\n' ∉ cs := fun hm => h (List.mem_cons_of_mem c hm)
    simp [splitNL, hc, ih htail]

theorem splitNL_getLastD_no_newline (s : List Char) :
    '\n' ∉ (splitNL s).getLastD [] := by
  induction s with
  | nil => simp [splitNL]
  | cons c cs ih =>
    by_cases h : c = '\n'
    · simpa [splitNL, h, getD_getLast?_cons] using ih
    · cases hcs : splitNL cs with
      | nil => exact absurd hcs (splitNL_ne_nil cs)
      | cons l ls =>
        cases ls with
        | nil =>
          have hl : '\n' ∉ l := by simpa [hcs] using ih
          have hcne : ¬ '\n' = c := fun hh => h hh.symm
          simp [splitNL, h, hcs, hcne, hl]
        | cons l2 ls2 =>
          have hrest : '\n' ∉ (l2 :: ls2).getLast?.getD l := by
            simpa [hcs, getD_getLast?_cons] using ih
          simpa [splitNL, h, hcs, getD_getLast?_cons] using
            (by simpa [getD_getLast?_cons] using hrest)

theorem runFeed_inv :
    ∀ (chunks : List (List Char)) (out : List (List Char)) (buf : List Char),
      '\n' ∉ buf →
      chunks.foldl feedStep (out, buf) =
        (out ++ (splitNL (buf ++ chunks.flatten)).dropLast,
         (splitNL (buf ++ chunks.flatten)).getLastD []) := by
  intro chunks
  induction chunks with
  | nil =>
    intro out buf hbuf
    simp [splitNL_no_newline buf hbuf]
  | cons c cs ih =>
    intro out buf hbuf
    have hbuf2 : '\n' ∉ (splitNL (buf ++ c)).getLastD [] :=
      splitNL_getLastD_no_newline (buf ++ c)
    have key : splitNL ((buf ++ c) ++ cs.flatten) =
        (splitNL (buf ++ c)).dropLast ++
          splitNL ((splitNL (buf ++ c)).getLastD [] ++ cs.flatten) := by
      rw [splitNL_append (buf ++ c) cs.flatten,
        splitNL_append ((splitNL (buf ++ c)).getLastD []) cs.flatten,
        splitNL_no_newline _ hbuf2]
      simp [mergeHead]
    have hstep : feedStep (out, buf) c =
        (out ++ (splitNL (buf ++ c)).dropLast, (splitNL (buf ++ c)).getLastD []) := rfl
    rw [List.foldl_cons, hstep, ih _ _ hbuf2, List.flatten_cons,
      ← List.append_assoc, key,
      dropLast_append_ne _ _ (splitNL_ne_nil _),
      getLastD_append_ne _ _ (splitNL_ne_nil _), List.append_assoc]

theorem runFeed_eq (chunks : List (List Char)) :
    runFeed chunks =
      ((splitNL chunks.flatten).dropLast, (splitNL chunks.flatten).getLastD []) := by
  have h := runFeed_inv chunks [] [] (by simp)
  simpa [runFeed] using h

end Codec

/-- Claim C10: for empty or null input text, DataParser.parseVesselData
returns exactly the hardcoded default values (pressure 15 bar, temperature
80 degrees C, diameter 1200 mm, material ASTM A516 Grade 70), and
hasRealData applied to that result returns false — absent vessel data is
silently replaced by the pressure-vessel defaults rather than reported as
missing, for every possible behaviour of the non-empty-text extraction. -/
theorem c10_empty_input_yields_defaults :
    ∀ extract : String → Parser.VesselData → Parser.VesselData,
      Parser.parseVesselData extract none = Parser.defaultValues ∧
      Parser.parseVesselData extract (some "") = Parser.defaultValues ∧
      Parser.defaultValues.pressure = 15 ∧
      Parser.defaultValues.temperature = 80 ∧
      Parser.defaultValues.diameter = 1200 ∧
      Parser.defaultValues.material = "ASTM A516 Grade 70" ∧
      Parser.hasRealData (Parser.parseVesselData extract none) = false ∧
      Parser.hasRealData (Parser.parseVesselData extract (some "")) = false := by
  intro extract
  have h : Parser.hasRealData Parser.defaultValues = false := by decide
  exact ⟨rfl, rfl, rfl, rfl, rfl, rfl, h, h⟩

/-- Claim C1 counterexample: with both requested participants failing their
Phase-1 call — zero successful participants — the simple server still
answers the collaborate tools/call with a result and no protocol error,
where the claim requires an InternalError-style error response; the Phase-1
success map is empty and both failures sit in the error map. -/
theorem c1_counterexample :
    (SimpleV.handleRequest allFailCalls fixedConsensus
        (collabRequest (some 1) (some "analyze") none (some ["gemini", "codex"]))).map
        Response.error = some none ∧
    (SimpleV.handleRequest allFailCalls fixedConsensus
        (collabRequest (some 1) (some "analyze") none (some ["gemini", "codex"]))).map
        (fun r => r.result.isSome) = some true ∧
    SimpleV.phase1 allFailCalls ["gemini", "codex"] =
      ([], [("gemini", "MCP connection failed"), ("codex", "MCP connection failed")]) :=
  ⟨rfl, rfl, rfl⟩

/-- Claim C1 amended: when every Phase-1 participant call fails (zero
successful participants), the simple server still returns the collaborate
tools/call as a success response carrying the report — no protocol error is
produced and the Phase-1 success map is empty; no session-level
AllParticipantsFailed error exists anywhere in the code. -/
theorem c1_total_failure_still_success_response :
    ∀ (calls : String → Except String String) (sc : AList → String)
      (rid : Option Int) (task content : Option String) (parts : List String),
      (∀ p ∈ parts, ∃ e, SimpleV.callParticipant calls p = .error e) →
      (SimpleV.handleRequest calls sc
          (collabRequest rid task content (some parts))).map Response.error =
        some none ∧
      (SimpleV.handleRequest calls sc
          (collabRequest rid task content (some parts))).map
          (fun r => r.result.isSome) = some true ∧
      (SimpleV.phase1 calls parts).1 = [] := by
  intro calls sc rid task content parts hfail
  refine ⟨rfl, rfl, ?_⟩
  exact recordLoop_all_error_fst (SimpleV.callParticipant calls)
    (parts.filter (fun p => p ≠ "serena")) ([], [])
    (fun p hp => hfail p (List.mem_of_mem_filter hp))

/-- Witness for claim C1: the amended theorem applied to the all-failing
oracle and the single participant gemini. -/
theorem c1_total_failure_witness :
    (∀ p ∈ ["gemini"], ∃ e, SimpleV.callParticipant allFailCalls p = .error e) ∧
    ((SimpleV.handleRequest allFailCalls fixedConsensus
        (collabRequest (some 2) (some "t") none (some ["gemini"]))).map
        Response.error = some none ∧
     (SimpleV.handleRequest allFailCalls fixedConsensus
        (collabRequest (some 2) (some "t") none (some ["gemini"]))).map
        (fun r => r.result.isSome) = some true ∧
     (SimpleV.phase1 allFailCalls ["gemini"]).1 = []) :=
  have h : ∀ p ∈ ["gemini"], ∃ e, SimpleV.callParticipant allFailCalls p = .error e := by
    intro p hp
    have hp' : p = "gemini" := by simpa using hp
    exact ⟨"MCP connection failed", by rw [hp']; rfl⟩
  ⟨h, c1_total_failure_still_success_response allFailCalls fixedConsensus
      (some 2) (some "t") none ["gemini"] h⟩

/-- Claim C5 counterexample: a collaborate tools/call whose task field is
absent is processed normally by the simple server and answered with a result
and no error — not rejected with an InvalidParams error; the same holds for
an empty task. -/
theorem c5_counterexample :
    (SimpleV.handleRequest okCalls fixedConsensus
        (collabRequest (some 3) none none (some ["ollama"]))).map Response.error =
      some none ∧
    (SimpleV.handleRequest okCalls fixedConsensus
        (collabRequest (some 3) none none (some ["ollama"]))).map
        (fun r => r.result.isSome) = some true ∧
    (SimpleV.handleRequest okCalls fixedConsensus
        (collabRequest (some 3) (some "") none (some ["ollama"]))).map
        Response.error = some none :=
  ⟨rfl, rfl, rfl⟩

/-- Claim C5 amended: the server performs no validation of the task field:
for every task value — present, empty or absent — and every other argument,
a collaborate tools/call is processed and answered with a success result and
no protocol error. -/
theorem c5_no_task_check :
    ∀ (calls : String → Except String String) (sc : AList → String)
      (rid : Option Int) (task content : Option String)
      (parts : Option (List String)),
      (SimpleV.handleRequest calls sc (collabRequest rid task content parts)).map
          Response.error = some none ∧
      (SimpleV.handleRequest calls sc (collabRequest rid task content parts)).map
          (fun r => r.result.isSome) = some true :=
  fun _ _ _ _ _ _ => ⟨rfl, rfl⟩

/-- Claim C2 counterexample: the simple server filters serena out of
Phase 1, so with the requested participant list containing only serena,
after Phase 1 the requested participant serena appears in neither the
success map nor the error map — not in exactly one of them. -/
theorem c2_counterexample :
    SimpleV.phase1 okCalls ["serena"] = ([], []) ∧ "serena" ∈ ["serena"] :=
  ⟨rfl, by decide⟩

/-- Claim C2 amended: after Phase 1 every requested participant other than
serena appears in exactly one of the success and error maps, holding exactly
the outcome of its own call — so one participant's failure neither removes
nor alters a sibling's entry, and no client-level error escapes the phase,
which always returns both maps.  This holds in the v2 server for every
requested participant; in the simple server it holds for every non-serena
participant, and a requested serena is recorded — in the success map — only
after the Phase-2 consensus step. -/
theorem c2_outcomes_recorded_independently :
    (∀ (calls : String → Except String String) (parts : List String) (p : String),
      p ∈ parts →
      (∀ r, FixedV2.callParticipant calls p = .ok r →
        alookup (FixedV2.phase1 calls parts).1 p = some r ∧
        alookup (FixedV2.phase1 calls parts).2 p = none) ∧
      (∀ e, FixedV2.callParticipant calls p = .error e →
        alookup (FixedV2.phase1 calls parts).1 p = none ∧
        alookup (FixedV2.phase1 calls parts).2 p = some e)) ∧
    (∀ (calls : String → Except String String) (parts : List String) (p : String),
      p ∈ parts → p ≠ "serena" →
      (∀ r, SimpleV.callParticipant calls p = .ok r →
        alookup (SimpleV.phase1 calls parts).1 p = some r ∧
        alookup (SimpleV.phase1 calls parts).2 p = none) ∧
      (∀ e, SimpleV.callParticipant calls p = .error e →
        alookup (SimpleV.phase1 calls parts).1 p = none ∧
        alookup (SimpleV.phase1 calls parts).2 p = some e)) ∧
    (∀ (calls : String → Except String String) (sc : AList → String)
       (parts : List String), "serena" ∈ parts →
      alookup (SimpleV.performCollaboration calls sc parts).1 "serena" =
        some (sc (SimpleV.phase1 calls parts).1) ∧
      alookup (SimpleV.performCollaboration calls sc parts).2 "serena" = none) := by
  refine ⟨?_, ?_, ?_⟩
  · intro calls parts p hp
    constructor
    · intro r hcall
      have h := recordLoop_mem_ok (FixedV2.callParticipant calls) parts
        ([], []) p r hp hcall
      exact ⟨h.1, h.2⟩
    · intro e hcall
      have h := recordLoop_mem_error (FixedV2.callParticipant calls) parts
        ([], []) p e hp hcall
      exact ⟨h.2, h.1⟩
  · intro calls parts p hp hps
    have hpf : p ∈ parts.filter (fun q => q ≠ "serena") :=
      List.mem_filter.mpr ⟨hp, by simp [hps]⟩
    constructor
    · intro r hcall
      have h := recordLoop_mem_ok (SimpleV.callParticipant calls)
        (parts.filter (fun q => q ≠ "serena")) ([], []) p r hpf hcall
      exact ⟨h.1, h.2⟩
    · intro e hcall
      have h := recordLoop_mem_error (SimpleV.callParticipant calls)
        (parts.filter (fun q => q ≠ "serena")) ([], []) p e hpf hcall
      exact ⟨h.2, h.1⟩
  · intro calls sc parts hmem
    constructor
    · simp [SimpleV.performCollaboration, hmem, alookup_setk_self]
    · have hnot : "serena" ∉ parts.filter (fun q => q ≠ "serena") := by simp
      have h := recordLoop_not_mem (SimpleV.callParticipant calls)
        (parts.filter (fun q => q ≠ "serena")) ([], []) "serena" hnot
      simpa [SimpleV.performCollaboration, hmem, SimpleV.phase1, alookup]
        using h.2

/-- Witness for claim C2: the amended theorem applied to concrete oracles —
a success recorded for gemini in the v2 server, a failure recorded for
ollama in the simple server, and serena recorded after Phase 2. -/
theorem c2_outcomes_witness :
    alookup (FixedV2.phase1 okCalls ["gemini", "codex"]).1 "gemini" =
      some ("gemini" ++ " analysis") ∧
    alookup (SimpleV.phase1 allFailCalls ["ollama"]).2 "ollama" =
      some "MCP connection failed" ∧
    alookup (SimpleV.performCollaboration okCalls fixedConsensus ["serena"]).1
      "serena" = some "serena consensus" :=
  ⟨((c2_outcomes_recorded_independently.1 okCalls ["gemini", "codex"] "gemini"
      (by decide)).1 ("gemini" ++ " analysis") rfl).1,
   ((c2_outcomes_recorded_independently.2.1 allFailCalls ["ollama"] "ollama"
      (by decide) (by decide)).2 "MCP connection failed" rfl).2,
   (c2_outcomes_recorded_independently.2.2 okCalls fixedConsensus ["serena"]
      (by decide)).1⟩

theorem alookup_otherResults_self (results : AList) (r : String) :
    alookup (RealV.otherResults results r) r = none := by
  induction results with
  | nil => rfl
  | cons kv rest ih =>
    by_cases h : kv.1 = r
    · simpa [RealV.otherResults, h] using ih
    · simp [RealV.otherResults, h, alookup, ih]

theorem alookup_otherResults_other (results : AList) (r q : String)
    (h : q ≠ r) :
    alookup (RealV.otherResults results r) q = alookup results q := by
  induction results with
  | nil => rfl
  | cons kv rest ih =>
    have hrq : ¬ r = q := fun hh => h hh.symm
    by_cases hk : kv.1 = r
    · have hkq : ¬ kv.1 = q := by rw [hk]; exact fun hh => h hh.symm
      simp [RealV.otherResults, hk, alookup, hkq, hrq, ih]
    · by_cases hq : kv.1 = q
      · simp [RealV.otherResults, hk, alookup, hq, h]
      · simp [RealV.otherResults, hk, alookup, hq, h, ih]

/-- Claim C3: the cross-review phase runs only when at least two participants
succeeded in Phase 1; when it runs, each Phase-1-successful participant as
reviewer is issued exactly one review call whose parameters are the Phase-1
results of all the other successful participants and never the reviewer's
own; review outcomes — a reviewer's failure included — are recorded keyed by
the reviewer identity without aborting the other reviewers or the session,
which always completes with its three maps. -/
theorem c3_cross_review :
    (∀ (rc : String → AList → Except String String) (results : AList),
      results.length < 2 → RealV.crossReviewPhase rc results = []) ∧
    (∀ (rc : String → AList → Except String String) (results : AList),
      2 ≤ results.length →
      (RealV.crossReviewPhase rc results).map Prod.fst = results.map Prod.fst) ∧
    (∀ (results : AList) (r : String),
      alookup (RealV.otherResults results r) r = none) ∧
    (∀ (results : AList) (r q : String), q ≠ r →
      alookup (RealV.otherResults results r) q = alookup results q) ∧
    (∀ (rc : String → AList → Except String String) (results : AList)
       (kv : String × String), kv ∈ RealV.crossReviewPhase rc results →
      kv.2 = RealV.discussionEntry rc results kv.1) ∧
    (∀ (rc : String → AList → Except String String) (results : AList)
       (r e : String),
      RealV.conductCrossReview rc r (RealV.otherResults results r) = .error e →
      RealV.discussionEntry rc results r = "Discussion error: " ++ e) := by
  refine ⟨?_, ?_, ?_, ?_, ?_, ?_⟩
  · intro rc results h
    rw [RealV.crossReviewPhase, if_neg (by omega)]
  · intro rc results h
    simp [RealV.crossReviewPhase, h, List.map_map, Function.comp]
  · intro results r
    exact alookup_otherResults_self results r
  · intro results r q h
    exact alookup_otherResults_other results r q h
  · intro rc results kv hkv
    by_cases h2 : 2 ≤ results.length
    · rw [RealV.crossReviewPhase, if_pos h2] at hkv
      obtain ⟨ab, _, heq⟩ := List.mem_map.mp hkv
      rw [← heq]
    · rw [RealV.crossReviewPhase, if_neg h2] at hkv
      exact absurd hkv (List.not_mem_nil kv)
  · intro rc results r e he
    simp [RealV.discussionEntry, he]

/-- Witness for claim C3: the theorem applied to concrete Phase-1 result
sets — a single success skips the phase, two successes produce one entry per
reviewer, the reviewer's own result is excluded from its review parameters
while the sibling result is passed through, and a failing reviewer is
recorded as a Discussion error. -/
theorem c3_cross_review_witness :
    RealV.crossReviewPhase okReview [("gemini", "g")] = [] ∧
    (RealV.crossReviewPhase codexFailReview
        [("gemini", "g"), ("codex", "c")]).map Prod.fst = ["gemini", "codex"] ∧
    alookup (RealV.otherResults [("gemini", "g"), ("codex", "c")] "gemini")
      "gemini" = none ∧
    alookup (RealV.otherResults [("gemini", "g"), ("codex", "c")] "gemini")
      "codex" = alookup [("gemini", "g"), ("codex", "c")] "codex" ∧
    RealV.discussionEntry codexFailReview [("gemini", "g"), ("codex", "c")]
      "codex" =
      "Discussion error: " ++ "Cross-review by codex failed: review timeout" :=
  ⟨c3_cross_review.1 okReview [("gemini", "g")] (by decide),
   c3_cross_review.2.1 codexFailReview [("gemini", "g"), ("codex", "c")]
     (by decide),
   c3_cross_review.2.2.1 [("gemini", "g"), ("codex", "c")] "gemini",
   c3_cross_review.2.2.2.1 [("gemini", "g"), ("codex", "c")] "gemini" "codex"
     (by decide),
   c3_cross_review.2.2.2.2.2 codexFailReview [("gemini", "g"), ("codex", "c")]
     "codex" "Cross-review by codex failed: review timeout" rfl⟩

theorem run_checks (n k : Nat) :
    Registry.run (List.replicate n Registry.Ev.check)
        { clients := [], spawnCount := k } =
      { clients := [], spawnCount := k + n } := by
  induction n generalizing k with
  | zero => rfl
  | succ m ih =>
    rw [List.replicate_succ, Registry.run, List.foldl_cons]
    have h1 : Registry.step { clients := [], spawnCount := k } Registry.Ev.check =
        { clients := [], spawnCount := k + 1 } := rfl
    rw [h1]
    have h2 := ih (k + 1)
    rw [Registry.run] at h2
    rw [h2, show k + 1 + m = k + (m + 1) from by omega]

theorem run_registers_spawnCount (n : Nat) (s : Registry.RegState) :
    (Registry.run (List.replicate n Registry.Ev.register) s).spawnCount =
      s.spawnCount := by
  induction n generalizing s with
  | zero => rfl
  | succ m ih =>
    rw [List.replicate_succ, Registry.run, List.foldl_cons]
    exact ih _

/-- Claim C4 counterexample: two concurrent creations for gemini-client in
which both check slices run before either register slice — exactly the
premise of the claim, N concurrent requests before the first creation
completes — spawn two child processes, not exactly one. -/
theorem c4_counterexample :
    (Registry.run [Registry.Ev.check, Registry.Ev.check, Registry.Ev.register,
        Registry.Ev.register] Registry.init).spawnCount = 2 ∧
    ¬ (Registry.run [Registry.Ev.check, Registry.Ev.check, Registry.Ev.register,
        Registry.Ev.register] Registry.init).spawnCount = 1 := by
  decide

/-- Claim C4 amended: N concurrent creation requests for one identity that
all pass the registry check before any creation completes spawn N child
processes — one per caller — because the code records a client only after
its connect succeeds and records no in-progress creation; a caller whose
check runs after a completed registration reuses the client and spawns
nothing. -/
theorem c4_one_spawn_per_unshared_check :
    ∀ n : Nat,
      (Registry.run (List.replicate n Registry.Ev.check ++
          List.replicate n Registry.Ev.register) Registry.init).spawnCount = n ∧
      (Registry.run [Registry.Ev.check, Registry.Ev.register, Registry.Ev.check]
          Registry.init).spawnCount = 1 := by
  intro n
  constructor
  · rw [Registry.run, List.foldl_append]
    have h1 := run_checks n 0
    rw [Registry.run] at h1
    rw [show Registry.init = { clients := [], spawnCount := 0 } from rfl, h1]
    have h2 := run_registers_spawnCount n { clients := [], spawnCount := 0 + n }
    rw [Registry.run] at h2
    rw [h2]
    exact Nat.zero_add n
  · decide

/-- Claim C6 counterexample: in the simple server an unknown tool name in a
tools/call request is answered with code -32601 — the MethodNotFound code —
and not with -32602, because the catch-all of handleRequest reports every
thrown handling error under -32601. -/
theorem c6_counterexample :
    (SimpleV.handleRequest okCalls fixedConsensus
        { id := some 4, method := "tools/call", toolName := some "bogus"
          args := { task := none, content := none, participants := none } }).map
        Response.error = some (some (-32601, "Unknown tool: bogus")) :=
  rfl

/-- Claim C6 amended: the proxy server answers an unknown method with
MethodNotFound (-32601) and an unknown tool name with InvalidParams
(-32602), as the claim states; the simple server however reports every
request-handling error — including an unknown tool name in tools/call —
under code -32601, so there an unknown tool is reported under the
MethodNotFound code. -/
theorem c6_error_code_dispatch :
    (∀ (collab : Except String String) (req : Request),
      req.method ≠ "initialize" → req.method ≠ "tools/list" →
      req.method ≠ "tools/call" → req.method ≠ "notifications/cancelled" →
      (Proxy.handleRequest collab req).map (fun r => r.error.map Prod.fst) =
        some (some (-32601))) ∧
    (∀ (collab : Except String String) (rid : Option Int) (name : String),
      name ≠ "collaborate" →
      (Proxy.handleToolCall collab rid (some name)).error =
        some (-32602, "Unknown tool: " ++ name)) ∧
    (∀ (calls : String → Except String String) (sc : AList → String)
       (rid : Option Int) (name : String) (args : Args), name ≠ "collaborate" →
      (SimpleV.handleRequest calls sc
          { id := rid, method := "tools/call", toolName := some name
            args := args }).map Response.error =
        some (some (-32601, "Unknown tool: " ++ name))) := by
  refine ⟨?_, ?_, ?_⟩
  · intro collab req h1 h2 h3 h4
    simp [Proxy.handleRequest, h1, h2, h3, h4]
  · intro collab rid name hn
    simp [Proxy.handleToolCall, hn]
  · intro calls sc rid name args hn
    simp [SimpleV.handleRequest, SimpleV.handleToolsCall, hn]

/-- Witness for claim C6: the amended theorem applied to a concrete unknown
method and a concrete unknown tool on both servers. -/
theorem c6_error_code_witness :
    ((Proxy.handleRequest (Except.ok "r")
        { id := some 5, method := "frobnicate", toolName := none
          args := { task := none, content := none, participants := none } }).map
        (fun r => r.error.map Prod.fst) = some (some (-32601))) ∧
    ((Proxy.handleToolCall (Except.ok "r") (some 5) (some "bogus")).error =
      some (-32602, "Unknown tool: " ++ "bogus")) ∧
    ((SimpleV.handleRequest okCalls fixedConsensus
        { id := some 5, method := "tools/call", toolName := some "bogus"
          args := { task := none, content := none, participants := none } }).map
        Response.error = some (some (-32601, "Unknown tool: " ++ "bogus"))) :=
  ⟨c6_error_code_dispatch.1 (Except.ok "r") _ (by decide) (by decide) (by decide)
      (by decide),
   c6_error_code_dispatch.2.1 (Except.ok "r") (some 5) "bogus" (by decide),
   c6_error_code_dispatch.2.2 okCalls fixedConsensus (some 5) "bogus"
     { task := none, content := none, participants := none } (by decide)⟩

/-- Claim C7 counterexample: the proxy server reader processes the same byte
stream differently depending on where the chunk boundaries fall — the two
newline-terminated lines a and b arriving as one data event are handed to
JSON.parse as the single piece a-newline-b, while the same bytes arriving as
two events are handed over as the two pieces a and b — so a
newline-terminated line is not processed exactly once independently of the
chunking. -/
theorem c7_counterexample :
    (['a', '\n', 'b', '\n'] : List Char) = ['a', '\n'] ++ ['b', '\n'] ∧
    Proxy.processChunks [['a', '\n', 'b', '\n']] = [['a', '\n', 'b']] ∧
    Proxy.processChunks [['a', '\n'], ['b', '\n']] = [['a'], ['b']] ∧
    Proxy.processChunks [['a', '\n', 'b', '\n']] ≠
      Proxy.processChunks [['a', '\n'], ['b', '\n']] := by
  refine ⟨rfl, ?_, ?_, ?_⟩ <;> decide

/-- Claim C7 amended: the simple server's buffered reader satisfies the
claim — over every chunking of the byte stream, the emitted complete lines
are exactly the newline-terminated lines of the concatenated stream, in
order, each exactly once, with the trailing partial line carried in the
buffer, so the decoded request sequence depends only on the stream and never
on the chunk boundaries; the proxy server's unbuffered reader (the
counterexample) splits each chunk separately on a literal backslash-n
sequence with no carry-over and violates the claim. -/
theorem c7_buffered_reader_chunking_independent :
    ∀ chunks : List (List Char),
      Codec.runFeed chunks =
        ((Codec.splitNL chunks.flatten).dropLast,
         (Codec.splitNL chunks.flatten).getLastD []) :=
  Codec.runFeed_eq

/-- Claim C8: when the 15 second handshake timer of createMCPClient fires
before client.connect settles, the creation fails with the
connection-timeout error, and the spawned child process is sent SIGTERM and
dropped from tracking — so a child honoring the termination signal is no
longer running. -/
theorem c8_handshake_timeout_kills_child :
    ∀ (honors : Bool) (o : Child.ConnectOutcome),
      Child.timesOut o = true →
      (Child.createAndCatch honors o).1 =
        .error "Gemini MCP call failed: gemini-client connection timeout" ∧
      "SIGTERM" ∈ (Child.createAndCatch honors o).2.proc.received ∧
      (Child.createAndCatch honors o).2.trackedProc = false ∧
      (honors = true → (Child.createAndCatch honors o).2.proc.alive = false) := by
  intro honors o ho
  cases o with
  | resolves t =>
    have ht : ¬ t < 15000 := by
      simp [Child.timesOut] at ho; omega
    cases honors <;>
      simp [Child.createAndCatch, ht, Child.cleanupClient, Child.cleanupKill,
        Child.procKill]
  | rejects t msg =>
    have ht : ¬ t < 15000 := by
      simp [Child.timesOut] at ho; omega
    cases honors <;>
      simp [Child.createAndCatch, ht, Child.cleanupClient, Child.cleanupKill,
        Child.procKill]
  | pending =>
    cases honors <;>
      simp [Child.createAndCatch, Child.cleanupClient, Child.cleanupKill,
        Child.procKill]

/-- Witness for claim C8: the theorem applied to a SIGTERM-honoring child
whose connect promise never settles. -/
theorem c8_handshake_timeout_witness :
    (Child.createAndCatch true Child.ConnectOutcome.pending).1 =
      .error "Gemini MCP call failed: gemini-client connection timeout" ∧
    "SIGTERM" ∈
      (Child.createAndCatch true Child.ConnectOutcome.pending).2.proc.received ∧
    (Child.createAndCatch true Child.ConnectOutcome.pending).2.trackedProc =
      false ∧
    (true = true →
      (Child.createAndCatch true Child.ConnectOutcome.pending).2.proc.alive =
        false) :=
  c8_handshake_timeout_kills_child true Child.ConnectOutcome.pending rfl

/-- Claim C9, evaluated at the failing input — a live, untouched child whose
process ignores SIGTERM: cleanupClient sends SIGTERM, and when its 5 second
timer fires the guard reads ChildProcess.killed, which became true the
moment SIGTERM was successfully delivered, so SIGKILL is never issued and
the process is still alive after the grace window — against the claim, the
spec and the code comment announcing a force kill; the simple server's
cleanup has no escalation at all.  A SIGTERM-honoring child does exit, which
is the only reason teardown usually looks correct. -/
theorem c9_sigkill_never_issued :
    Child.cleanupKill false
        { alive := true, killedFlag := false, received := [] } =
      { alive := true, killedFlag := true, received := ["SIGTERM"] } ∧
    "SIGKILL" ∉ (Child.cleanupKill false
        { alive := true, killedFlag := false, received := [] }).received ∧
    (Child.cleanupKill false
        { alive := true, killedFlag := false, received := [] }).alive = true ∧
    Child.simpleCleanup false
        { alive := true, killedFlag := false, received := [] } =
      { alive := true, killedFlag := true, received := ["SIGTERM"] } ∧
    (Child.cleanupKill true
        { alive := true, killedFlag := false, received := [] }).alive = false := by
  decide

end CollabProxy
